import Mathlib

/-!
Verification of the transaction orchestration and escrow engine of the Zappo
WhatsApp wallet service.  The definitions below are a shallow embedding of the
JavaScript source: `CommandHandler` (message routing, confirmation handling,
USDC deposit execution), `TransactionHandler` (transaction preparation and
execution), and `Web3/contracts/connections.js` (the contract deposit helper).
Monetary amounts are embedded as rationals; the per-user maps
(`userStates`, `pendingTransactions`) are embedded as functions from phone
numbers to optional records.  External collaborators (gas oracle, wallet
store, on-chain submission) enter as explicit parameters.
-/

namespace Zappo

abbrev Phone := String

/-- A per-key in-memory map, the shape of the two `Map` objects held by
`CommandHandler` (`userStates`, `pendingTransactions`). -/
abbrev Store (α : Type) := Phone → Option α

/-- `Map.set` on a per-key store. -/
def Store.set {α : Type} (m : Store α) (k : Phone) (v : α) : Store α :=
  fun k2 => if k2 = k then some v else m k2

/-- `Map.delete` on a per-key store. -/
def Store.del {α : Type} (m : Store α) (k : Phone) : Store α :=
  fun k2 => if k2 = k then none else m k2

/-- A user wallet as returned by `walletHandler.getUserWallet`: an address and
the cached balance field (absent when the balance is unavailable, mirroring
the `!wallet.balance` check in the source). -/
structure Wallet where
  address : String
  balance : Option ℚ
deriving DecidableEq, Repr

/-- The send parameters assembled by `CommandHandler.handleSendTransaction`
and read by `TransactionHandler.handleSendTransaction`.  `amount = none`
models a missing or non-numeric amount (`parseFloat` returning `NaN`). -/
structure SendParams where
  amount : Option ℚ
  recipientAddress : Option String
  recipientPhone : Option Phone
  name : Option String
deriving DecidableEq, Repr

/-- The `transactionData` record built by
`TransactionHandler.handleSendTransaction` (part_008, lines 224-233). -/
structure TransactionData where
  fromAddr : String
  toAddr : Option String
  amount : ℚ
  estimatedCost : ℚ
  totalCost : ℚ
  recipientPhone : Option Phone
  shouldCreateClaimLink : Bool
deriving DecidableEq, Repr

/-- An entry of the shared `pendingTransactions` map.  The three variants are
the three `type` tags the source distinguishes (`send_transaction`,
`usdc_deposit`, `usdc_swap`); each entry records the `timestamp: Date.now()`
field the source stores with it. -/
inductive PendingTx
  | sendTx (data : TransactionData) (origName : Option String) (timestamp : ℕ)
  | usdcDeposit (amount zapTokens : ℚ) (timestamp : ℕ)
  | usdcSwap (timestamp : ℕ)
deriving DecidableEq, Repr

/-- The stored timestamp of a pending-transaction entry. -/
def PendingTx.timestamp : PendingTx → ℕ
  | .sendTx _ _ t => t
  | .usdcDeposit _ _ t => t
  | .usdcSwap t => t

/-- Outcome of `TransactionHandler.handleSendTransaction`: either one of the
thrown-and-caught preparation errors, or the confirmation prompt with the
pending record stored.  Error constructors carry the numbers interpolated
into the user-facing message. -/
inductive PrepOutcome
  | errMissingParams
  | errInvalidAmount
  | errWalletNotFound
  | errInsufficientBalance (haveBal tried : ℚ)
  | errInsufficientTotal (need haveBal : ℚ)
  | confirmed (d : TransactionData)
deriving DecidableEq, Repr

/-- The monetary values interpolated into the user-facing text of a
preparation outcome (the `${...}` holes of the thrown error messages). -/
def PrepOutcome.displayedAmounts : PrepOutcome → List ℚ
  | .errInsufficientBalance haveBal tried => [haveBal, tried]
  | .errInsufficientTotal need haveBal => [need, haveBal]
  | _ => []

/-- `TransactionHandler.handleSendTransaction` (part_008, lines 174-260).
Validates the amount, resolves the recipient (an unresolvable recipient phone
switches the flow to claim-link creation), checks the amount and then the
amount-plus-gas against the cached balance, and on success stores the pending
record keyed by the sender phone.  `wallets` stands for
`walletHandler.getUserWallet`, `gasEstimate` for the oracle result
`nebulaService.estimateGas(...).estimatedCost`, `now` for `Date.now()`. -/
def handleSendTransaction (wallets : Store Wallet) (gasEstimate : ℚ) (now : ℕ)
    (pending : Store PendingTx) (phone : Phone) (p : SendParams) :
    Store PendingTx × PrepOutcome :=
  match p.amount with
  | none => (pending, .errMissingParams)
  | some a =>
    if a ≤ 0 then (pending, .errInvalidAmount)
    else
      match wallets phone with
      | none => (pending, .errWalletNotFound)
      | some w =>
        match w.balance with
        | none => (pending, .errWalletNotFound)
        | some bal =>
          let resolved : Option String × Bool :=
            match p.recipientAddress, p.recipientPhone with
            | some addr, _ => (some addr, false)
            | none, some rp =>
              match wallets rp with
              | some rw => (some rw.address, false)
              | none => (none, true)
            | none, none => (none, false)
          if bal < a then (pending, .errInsufficientBalance bal a)
          else
            let totalCost := a + gasEstimate
            if bal < totalCost then (pending, .errInsufficientTotal totalCost bal)
            else
              let d : TransactionData :=
                { fromAddr := w.address
                  toAddr := resolved.1
                  amount := a
                  estimatedCost := gasEstimate
                  totalCost := totalCost
                  recipientPhone := if resolved.2 then p.recipientPhone else none
                  shouldCreateClaimLink := resolved.2 }
              (pending.set phone (.sendTx d p.name now), .confirmed d)

/-- Result object of `claimsService.createClaimLink` as read by the executor
(`txResult.success`, `txResult.claimLink`). -/
structure ClaimLinkCreateResult where
  success : Bool
  claimLink : String
deriving DecidableEq, Repr

/-- The external world as seen by `executePendingTransaction`: the wallet
store at execution time, the outcome of a claim-link creation, and the
outcome of an on-chain transfer submission. -/
structure ExecEnv where
  wallets : Store Wallet
  claimLinkResult : ClaimLinkCreateResult
  transferOk : Bool
  txHash : String

/-- Outcome of `TransactionHandler.executePendingTransaction`.  The first two
constructors are the aborts before any dispatch; the remaining four record a
dispatch to claim-link creation or to on-chain transfer submission. -/
inductive ExecOutcome
  | errNoWallet
  | errBalanceChanged
  | claimLinkCreated (recipient : Option Phone) (amount : ℚ) (link : String)
  | errClaimLinkFailed
  | transferSuccess (toAddr : Option String) (amount : ℚ) (hash : String)
  | errTransferFailed
deriving DecidableEq, Repr

/-- Whether the executor reached a dispatch (claim-link creation or transfer
submission) rather than aborting on the pre-dispatch checks. -/
def ExecOutcome.dispatched : ExecOutcome → Bool
  | .errNoWallet => false
  | .errBalanceChanged => false
  | _ => true

/-- `TransactionHandler.executePendingTransaction` (part_008, lines 263-311).
Re-fetches the wallet at execution time, re-checks `data.totalCost` against
the wallet balance read now (the prepared record carries no balance), and
then dispatches either to `claimsService.createClaimLink` or to
`nebulaService.sendTransaction`. -/
def executePendingTransaction (env : ExecEnv) (phone : Phone)
    (d : TransactionData) : ExecOutcome :=
  match env.wallets phone with
  | none => .errNoWallet
  | some w =>
    match w.balance with
    | none => .errNoWallet
    | some bal =>
      if bal < d.totalCost then .errBalanceChanged
      else if d.shouldCreateClaimLink then
        if env.claimLinkResult.success then
          .claimLinkCreated d.recipientPhone d.amount env.claimLinkResult.claimLink
        else .errClaimLinkFailed
      else if env.transferOk then .transferSuccess d.toAddr d.amount env.txHash
      else .errTransferFailed

/-! ## The contract deposit helper and the USDC deposit executor -/

/-- What actually happens on chain when the deposit helper runs: the deposit
transaction either confirms with a hash or the attempt throws with a
message. -/
inductive DepositOutcome
  | chainSuccess (hash : String)
  | chainFailure (msg : String)
deriving DecidableEq, Repr

/-- The result object `CommandHandler.executeUSDCDeposit` expects from the
deposit helper (`result.success`, `result.hash`, `result.error`). -/
structure DepositResult where
  success : Bool
  hash : String
  error : String
deriving DecidableEq, Repr

/-- `deposit` from `Web3/contracts/connections.js` (lines 32-63): the try
block sends the transaction and logs, but no code path executes a `return`
statement, and the catch block swallows every error, so the function yields
`undefined` (here `none`) on success and on failure alike. -/
def deposit (outcome : DepositOutcome) : Option DepositResult :=
  match outcome with
  | .chainSuccess _ => none
  | .chainFailure _ => none

/-- The message `CommandHandler.executeUSDCDeposit` ends up sending. -/
inductive USDCDepositReport
  | depositSuccessMsg (hash : String)
  | depositFailedMsg
deriving DecidableEq, Repr

/-- `CommandHandler.executeUSDCDeposit` (part_007, lines 2225-2288): calls
the deposit helper and branches on `result.success`.  When the helper
returns `undefined`, the property read `result.success` throws a
`TypeError`, which the surrounding catch turns into the deposit-failed
message. -/
def executeUSDCDeposit (outcome : DepositOutcome) (amount zapTokens : ℚ) :
    USDCDepositReport :=
  match deposit outcome with
  | none => .depositFailedMsg
  | some r => if r.success then .depositSuccessMsg r.hash else .depositFailedMsg

/-! ## Confirmation handling and message routing -/

/-- Classification of a reply by `commandParser.isConfirmation` /
`isCancellation` (the parser itself lives outside the packaged sources; the
handler only branches on which of the two predicates accepts the text, so
the classification is the faithful interface). -/
inductive Reply
  | affirmative
  | negative
  | other
deriving DecidableEq, Repr

/-- Outcome of `CommandHandler.handleTransactionConfirmation`. -/
inductive ConfirmOutcome
  | noPending
  | executed (o : ExecOutcome)
  | usdcDepositRun (r : USDCDepositReport)
  | usdcSwapRun
  | cancelled
  | reprompt
deriving DecidableEq, Repr

/-- How many times the confirmation handler dispatched execution (ran
`executePendingTransaction`, `executeUSDCDeposit` or `executeUSDCSwap`). -/
def ConfirmOutcome.execDispatchCount : ConfirmOutcome → ℕ
  | .executed _ => 1
  | .usdcDepositRun _ => 1
  | .usdcSwapRun => 1
  | _ => 0

/-- `CommandHandler.handleTransactionConfirmation` (part_007, lines
1452-1508): read the pending record; if absent report nothing pending; on an
affirmative reply delete the record first and then dispatch by its `type`
tag; on a negative reply delete it and report cancellation; otherwise leave
everything unchanged and re-prompt.  No field of the record other than the
`type` tag and its payload is consulted — in particular not its stored
`timestamp`. -/
def handleTransactionConfirmation (env : ExecEnv) (dep : DepositOutcome)
    (pending : Store PendingTx) (phone : Phone) (r : Reply) :
    Store PendingTx × ConfirmOutcome :=
  match pending phone with
  | none => (pending, .noPending)
  | some ptx =>
    match r with
    | .affirmative =>
      let pending2 := pending.del phone
      match ptx with
      | .usdcDeposit amt zap _ =>
        (pending2, .usdcDepositRun (executeUSDCDeposit dep amt zap))
      | .usdcSwap _ => (pending2, .usdcSwapRun)
      | .sendTx d _ _ =>
        (pending2, .executed (executePendingTransaction env phone d))
    | .negative => (pending.del phone, .cancelled)
    | .other => (pending, .reprompt)

/-- A `userStates` entry: the string state tag and the `timestamp` that
`handleStatefulMessage` checks against the 5-minute window. -/
structure UserState where
  state : String
  timestamp : ℕ
deriving DecidableEq, Repr

/-- Outcome of `CommandHandler.handleStatefulMessage`. -/
inductive StatefulOutcome
  | cancelledOp
  | noActive
  | timedOut
  | flowDispatched (tag : String)
deriving DecidableEq, Repr

/-- `CommandHandler.handleStatefulMessage` (part_007, lines 1511-1533 for the
generic part): a literal "cancel" deletes the state; an absent state sends
guidance; a state older than `5 * 60 * 1000` milliseconds is deleted and the
operation reported timed out; otherwise the message is dispatched to the
state-specific flow handler named by the tag. -/
def handleStatefulMessage (now : ℕ) (states : Store UserState) (phone : Phone)
    (cancelText : Bool) : Store UserState × StatefulOutcome :=
  if cancelText then (states.del phone, .cancelledOp)
  else
    match states phone with
    | none => (states, .noActive)
    | some us =>
      if 5 * 60 * 1000 < now - us.timestamp then (states.del phone, .timedOut)
      else (states, .flowDispatched us.state)

/-- The per-user state held by `CommandHandler`: the two maps created in its
constructor (part_007, lines 539-540).  The `pendingTransactions` map is the
one shared with `TransactionHandler` via `injectSendMessage`. -/
structure CHState where
  userStates : Store UserState
  pendingTransactions : Store PendingTx

/-- Which branch of `CommandHandler.handleMessage` a message falls into. -/
inductive Route
  | confirmation
  | stateful
  | commandParsing
deriving DecidableEq, Repr

/-- The routing decision of `CommandHandler.handleMessage` (part_007, lines
573-587): a pending transaction confirmation is checked first, then a
stateful flow, and only then command parsing. -/
def routeMessage (st : CHState) (phone : Phone) : Route :=
  if (st.pendingTransactions phone).isSome then .confirmation
  else if (st.userStates phone).isSome then .stateful
  else .commandParsing

/-- The text-derived inputs a single inbound message contributes: its
confirmation-reply classification and whether it is the literal "cancel". -/
structure MsgInput where
  reply : Reply
  cancelText : Bool
deriving DecidableEq, Repr

/-- Observable outcome of one `handleMessage` step. -/
inductive MsgOutcome
  | confirmed (o : ConfirmOutcome)
  | stateful (o : StatefulOutcome)
  | commandPath
deriving DecidableEq, Repr

/-- Execution dispatches performed by one message step. -/
def MsgOutcome.execDispatchCount : MsgOutcome → ℕ
  | .confirmed o => o.execDispatchCount
  | _ => 0

/-- One step of `CommandHandler.handleMessage` (part_007, lines 561-639)
restricted to the three routes: pending-confirmation handling takes
precedence, then stateful-flow handling, then command parsing (whose many
command branches are outside the claims and collapsed into one outcome). -/
def processMessage (env : ExecEnv) (dep : DepositOutcome) (now : ℕ)
    (st : CHState) (phone : Phone) (input : MsgInput) : CHState × MsgOutcome :=
  if (st.pendingTransactions phone).isSome then
    let r := handleTransactionConfirmation env dep st.pendingTransactions phone input.reply
    ({ st with pendingTransactions := r.1 }, .confirmed r.2)
  else if (st.userStates phone).isSome then
    let r := handleStatefulMessage now st.userStates phone input.cancelText
    ({ st with userStates := r.1 }, .stateful r.2)
  else (st, .commandPath)

/-! ## Command-handler wrapper around transaction preparation -/

/-- Modelled from the spec: `commandParser.validateAmount`
(`parsers/commandParser.js` is required by the command handler but absent
from the packaged sources).  Per the spec, an amount is valid iff it parses
as a number inside the configured range `[1e-6, 1e6]`; the rejection message
in the command handler names exactly that range. -/
def validateAmount (a : Option ℚ) : Bool :=
  match a with
  | none => false
  | some x => decide (1 / 1000000 ≤ x ∧ x ≤ 1000000)

/-- Outcome of `CommandHandler.handleSendTransaction`. -/
inductive CHPrepOutcome
  | errNoUser
  | errInvalidAmountRange
  | delegated (o : PrepOutcome)
deriving DecidableEq, Repr

/-- `CommandHandler.handleSendTransaction` (part_007, lines 1395-1449),
restricted to the direct-parameters path: check the user exists, validate
the amount with `commandParser.validateAmount`, and only then delegate to
`TransactionHandler.handleSendTransaction`.  `usersStore` stands for
`users.findUserByPhone`. -/
def chHandleSendTransaction (usersStore : Store Unit) (wallets : Store Wallet)
    (gasEstimate : ℚ) (now : ℕ) (st : CHState) (phone : Phone)
    (p : SendParams) : CHState × CHPrepOutcome :=
  match usersStore phone with
  | none => (st, .errNoUser)
  | some _ =>
    if validateAmount p.amount then
      let r := handleSendTransaction wallets gasEstimate now
        st.pendingTransactions phone p
      ({ st with pendingTransactions := r.1 }, .delegated r.2)
    else (st, .errInvalidAmountRange)

/-! ## The claim escrow service -/

/-- Status of a claim link: `Pending | Claimed | Refunded`. -/
inductive ClaimStatus
  | pending
  | claimed
  | refunded
deriving DecidableEq, Repr

/-- A stored claim link record. -/
structure ClaimLink where
  sender : Phone
  recipientIdentifier : String
  amount : ℚ
  createdAt : ℕ
  expiresAt : ℕ
  status : ClaimStatus
deriving DecidableEq, Repr

/-- Outcome of a claim redemption. -/
inductive ClaimOutcome
  | success (netAmount gasCost : ℚ) (txHash : String)
  | errNotFound
  | errExpired
  | errAlreadyClaimed
deriving DecidableEq, Repr

/-- Whether a redemption succeeded (and hence transferred funds). -/
def ClaimOutcome.isSuccess : ClaimOutcome → Bool
  | .success .. => true
  | _ => false

/-- Modelled from the spec: `claimsService.validateAndClaim`
(`services/claims.js` is required by the command handler but absent from the
packaged sources; only its caller `CommandHandler.handleClaimFlow` is
present).  Per the spec, redemption looks the claim up by token, fails
`NotFound` if the token is unknown, fails `AlreadyClaimed` if the record has
already reached a terminal state (`Claimed` or `Refunded` are never mutated
afterwards), fails `Expired` past `expiresAt`, and otherwise deducts the
payout gas from the held amount (net floored at zero), marks the record
`Claimed` atomically with the payout, and returns the receipt. -/
def claim (links : Store ClaimLink) (token : String) (now : ℕ)
    (gasCost : ℚ) (txHash : String) : Store ClaimLink × ClaimOutcome :=
  match links token with
  | none => (links, .errNotFound)
  | some l =>
    if l.status ≠ .pending then (links, .errAlreadyClaimed)
    else if l.expiresAt < now then (links, .errExpired)
    else
      (links.set token { l with status := .claimed },
       .success (max (l.amount - gasCost) 0) gasCost txHash)

/-- Modelled from the spec: the per-link step of
`claimsService.sweepExpired`.  A `Pending` link past `expiresAt` is refunded
to the sender and marked `Refunded`; any other link is left untouched. -/
def sweepOne (links : Store ClaimLink) (token : String) (now : ℕ) :
    Store ClaimLink :=
  match links token with
  | none => links
  | some l =>
    if l.status = .pending ∧ l.expiresAt < now then
      links.set token { l with status := .refunded }
    else links

/-! ## Concrete fixtures used by witnesses and counterexamples -/

/-- A concrete prepared direct transfer: 0.5 ETH to `0xB`, gas 0.01. -/
def dEx : TransactionData :=
  { fromAddr := "0xA", toAddr := some "0xB", amount := 1/2,
    estimatedCost := 1/100, totalCost := 51/100,
    recipientPhone := none, shouldCreateClaimLink := false }

/-- A pending entry for that transfer, created at time 0. -/
def ptxEx : PendingTx := .sendTx dEx none 0

/-- A `pendingTransactions` map with exactly that entry for user `9111`. -/
def pendingEx : Store PendingTx :=
  fun k => if k = "9111" then some ptxEx else none

/-- An empty `userStates` map. -/
def statesEmpty : Store UserState := fun _ => none

/-- A command-handler state in which user `9111` awaits confirmation. -/
def stEx : CHState :=
  { userStates := statesEmpty, pendingTransactions := pendingEx }

/-- A wallet store in which user `9111` owns `0xA` with balance 1 ETH. -/
def walletsEx : Store Wallet :=
  fun k => if k = "9111" then some { address := "0xA", balance := some 1 }
           else none

/-- An execution environment over that wallet store in which both the
claim-link creation and the transfer submission succeed. -/
def envEx : ExecEnv :=
  { wallets := walletsEx,
    claimLinkResult := { success := true, claimLink := "claim/TOK1" },
    transferOk := true, txHash := "0xhash" }

/-- A deposit attempt whose on-chain transaction confirms. -/
def depEx : DepositOutcome := .chainSuccess "0xdep"

/-- An inbound message classified as an affirmative confirmation reply. -/
def inputYes : MsgInput := { reply := .affirmative, cancelText := false }

/-- A wallet store in which the balance of user `9111` has drifted down to
0.25 ETH, below the prepared total cost of `dEx`. -/
def walletsPoor : Store Wallet :=
  fun k => if k = "9111" then some { address := "0xA", balance := some (1/4) }
           else none

/-- An execution environment over the drifted wallet store. -/
def envPoor : ExecEnv :=
  { wallets := walletsPoor,
    claimLinkResult := { success := true, claimLink := "claim/TOK1" },
    transferOk := true, txHash := "0xhash" }

/-- A users table in which only `9111` is registered. -/
def usersEx : Store Unit := fun k => if k = "9111" then some () else none

/-- A prepare request for 0.8 ETH to a raw address; with balance 1 and gas
0.3 the total 1.1 exceeds the balance while the amount alone does not. -/
def pC5 : SendParams :=
  { amount := some (4/5), recipientAddress := some "0xB",
    recipientPhone := none, name := none }

/-- A prepare request whose amount failed to parse as a number. -/
def pBad : SendParams :=
  { amount := none, recipientAddress := some "0xB",
    recipientPhone := none, name := none }

/-- A prepare request of 0.1 ETH addressed to the unregistered phone
`9333`. -/
def pC7 : SendParams :=
  { amount := some (1/10), recipientAddress := none,
    recipientPhone := some "9333", name := some "Alice" }

/-- A claim-link table holding one pending link of 0.1 ETH under token
`TOK1`, expiring at the 3-day mark. -/
def linksC1 : Store ClaimLink :=
  fun t => if t = "TOK1" then
    some { sender := "9111", recipientIdentifier := "9333", amount := 1/10,
           createdAt := 0, expiresAt := 259200000, status := .pending }
  else none

/-! ## Claim theorems -/

/-- C10: the contract-deposit helper returns `undefined` on success and on
failure alike (its try block has no return statement and its catch block
swallows every error), so `executeUSDCDeposit`, which reads
`result.success` from that return value, reports failure to the user for
every confirmed deposit — including when the on-chain deposit transaction
succeeded. -/
theorem deposit_helper_always_reports_failure
    (outcome : DepositOutcome) (amount zapTokens : ℚ) :
    deposit outcome = none ∧
    executeUSDCDeposit outcome amount zapTokens = .depositFailedMsg := by
  cases outcome <;> exact ⟨rfl, rfl⟩

/-- C9: while a pending transaction exists for a user, `handleMessage`
routes every inbound text message from that user to the confirmation
handler before the stateful-flow branch and before command parsing, so the
outcome of the step is always a confirmation-handler outcome. -/
theorem pending_routes_to_confirmation_first (st : CHState) (phone : Phone)
    (h : (st.pendingTransactions phone).isSome = true) :
    routeMessage st phone = .confirmation ∧
    ∀ (env : ExecEnv) (dep : DepositOutcome) (now : ℕ) (input : MsgInput),
      ∃ o, (processMessage env dep now st phone input).2 = .confirmed o := by
  constructor
  · unfold routeMessage
    simp [h]
  · intro env dep now input
    unfold processMessage
    simp [h]

/-- C9 witness: with user `9111` awaiting confirmation, the step at a
concrete environment is routed to the confirmation handler. -/
theorem pending_routes_to_confirmation_first_witness :
    routeMessage stEx "9111" = .confirmation ∧
    ∀ (env : ExecEnv) (dep : DepositOutcome) (now : ℕ) (input : MsgInput),
      ∃ o, (processMessage env dep now stEx "9111" input).2 = .confirmed o :=
  pending_routes_to_confirmation_first stEx "9111" rfl

/-- C8: a confirmation reply recognized as neither affirmative nor negative
leaves the whole command-handler state — the pending record and the
user-state map — unchanged, and the step only re-prompts. -/
theorem unrecognized_reply_changes_nothing (env : ExecEnv)
    (dep : DepositOutcome) (now : ℕ) (st : CHState) (phone : Phone)
    (input : MsgInput) (ptx : PendingTx)
    (hp : st.pendingTransactions phone = some ptx)
    (hr : input.reply = .other) :
    processMessage env dep now st phone input = (st, .confirmed .reprompt) := by
  unfold processMessage handleTransactionConfirmation
  simp [hp, hr]

/-- C8 witness: an unclassified reply to the pending confirmation of user
`9111` leaves the state untouched and re-prompts. -/
theorem unrecognized_reply_changes_nothing_witness :
    processMessage envEx depEx 1000 stEx "9111"
      { reply := .other, cancelText := false }
      = (stEx, .confirmed .reprompt) :=
  unrecognized_reply_changes_nothing envEx depEx 1000 stEx "9111"
    { reply := .other, cancelText := false } ptxEx rfl rfl

/-- C3 (code bug): a pending transaction created at time 0 and confirmed at
time 301000 ms — past the 5-minute staleness window that
`handleStatefulMessage` enforces for the sibling `userStates` map — is not
treated as absent: the confirmation handler never reads the stored
`timestamp`, so the stale record is dispatched to execution. -/
theorem stale_pending_transaction_still_dispatched :
    (processMessage envEx depEx 301000 stEx "9111" inputYes).2
      = .confirmed (.executed (.transferSuccess (some "0xB") (1/2) "0xhash")) ∧
    5 * 60 * 1000 < 301000 - ptxEx.timestamp := by
  constructor
  · norm_num [processMessage, handleTransactionConfirmation,
      executePendingTransaction, stEx, pendingEx, ptxEx, dEx, envEx,
      walletsEx, depEx, inputYes, statesEmpty, Store.del]
  · decide

/-- Helper: a message step for a user with no pending transaction performs
no execution dispatch (it lands in the stateful or command-parsing branch). -/
theorem processMessage_no_pending_no_dispatch (env : ExecEnv)
    (dep : DepositOutcome) (now : ℕ) (st : CHState) (phone : Phone)
    (input : MsgInput) (h : st.pendingTransactions phone = none) :
    (processMessage env dep now st phone input).2.execDispatchCount = 0 := by
  unfold processMessage
  rw [h]
  by_cases hs : (st.userStates phone).isSome <;>
    simp [hs, MsgOutcome.execDispatchCount]

/-- C2: two confirmation replies processed in immediate succession dispatch
execution at most once: the first affirmative reply deletes the pending
record before dispatching, so the second reply finds no pending record and
performs no execution dispatch. -/
theorem double_confirmation_dispatches_once
    (env env2 : ExecEnv) (dep dep2 : DepositOutcome) (now now2 : ℕ)
    (st : CHState) (phone : Phone) (i1 i2 : MsgInput) (ptx : PendingTx)
    (hp : st.pendingTransactions phone = some ptx)
    (h1 : i1.reply = .affirmative) (h2 : i2.reply = .affirmative) :
    (processMessage env dep now st phone i1).1.pendingTransactions phone
      = none ∧
    (processMessage env2 dep2 now2
        (processMessage env dep now st phone i1).1 phone i2).2.execDispatchCount
      = 0 ∧
    (processMessage env dep now st phone i1).2.execDispatchCount +
      (processMessage env2 dep2 now2
        (processMessage env dep now st phone i1).1 phone i2).2.execDispatchCount
      ≤ 1 := by
  have hsome : (st.pendingTransactions phone).isSome = true := by
    rw [hp]; rfl
  have hfirst :
      (processMessage env dep now st phone i1).1.pendingTransactions phone
        = none ∧
      (processMessage env dep now st phone i1).2.execDispatchCount ≤ 1 := by
    unfold processMessage handleTransactionConfirmation
    rw [hp] at hsome ⊢
    cases ptx <;>
      simp [h1, Store.del, ConfirmOutcome.execDispatchCount,
        MsgOutcome.execDispatchCount]
  have hsecond := processMessage_no_pending_no_dispatch env2 dep2 now2
    (processMessage env dep now st phone i1).1 phone i2 hfirst.1
  have hf2 := hfirst.2
  exact ⟨hfirst.1, hsecond, by omega⟩

/-- C2 witness: with user `9111` awaiting confirmation of `dEx`, two
affirmative replies in succession leave no pending record after the first,
dispatch nothing on the second, and dispatch at most once in total. -/
theorem double_confirmation_dispatches_once_witness :
    (processMessage envEx depEx 5 stEx "9111" inputYes).1.pendingTransactions
      "9111" = none ∧
    (processMessage envEx depEx 10
        (processMessage envEx depEx 5 stEx "9111" inputYes).1 "9111"
        inputYes).2.execDispatchCount = 0 ∧
    (processMessage envEx depEx 5 stEx "9111" inputYes).2.execDispatchCount +
      (processMessage envEx depEx 10
        (processMessage envEx depEx 5 stEx "9111" inputYes).1 "9111"
        inputYes).2.execDispatchCount ≤ 1 :=
  double_confirmation_dispatches_once envEx envEx depEx depEx 5 10 stEx
    "9111" inputYes inputYes ptxEx rfl rfl rfl

/-- C4: `executePendingTransaction` re-validates affordability against the
balance read from the wallet store at execution time (the prepared record
carries no balance field, so the preparation-time balance cannot enter):
execution aborts before any dispatch exactly when the prepared total cost
exceeds that freshly read balance. -/
theorem execution_revalidates_fresh_balance (env : ExecEnv) (phone : Phone)
    (d : TransactionData) (w : Wallet) (bExec : ℚ)
    (hw : env.wallets phone = some w) (hb : w.balance = some bExec) :
    (bExec < d.totalCost →
      executePendingTransaction env phone d = .errBalanceChanged) ∧
    ((executePendingTransaction env phone d).dispatched = true
      ↔ d.totalCost ≤ bExec) := by
  unfold executePendingTransaction
  simp only [hw, hb]
  by_cases hlt : bExec < d.totalCost
  · simp [hlt, ExecOutcome.dispatched, not_le.mpr hlt]
  · have hle : d.totalCost ≤ bExec := le_of_not_lt hlt
    simp only [if_neg hlt]
    refine ⟨fun h => absurd h hlt, ?_⟩
    split_ifs <;> simp [ExecOutcome.dispatched, hle]

/-- C4 witness: the balance of user `9111` has drifted down to 0.25 ETH,
below the prepared total of 0.51 ETH, so the confirmed execution aborts as
re-validation against the freshly read balance fails. -/
theorem execution_revalidates_fresh_balance_witness :
    executePendingTransaction envPoor "9111" dEx = .errBalanceChanged :=
  (execution_revalidates_fresh_balance envPoor "9111" dEx
    { address := "0xA", balance := some (1/4) } (1/4) rfl rfl).1
    (by norm_num [dEx])

/-- C7: a prepare request whose recipient phone does not resolve to a known
wallet produces a pending transaction in claim-link mode (`EscrowCreate`):
the unresolved identifier is retained in the stored record, and confirming
that record delegates execution to claim-link creation with exactly that
identifier and the validated amount. -/
theorem unresolved_recipient_creates_escrow (wallets : Store Wallet)
    (gas : ℚ) (now : ℕ) (pending : Store PendingTx) (phone rp : Phone)
    (p : SendParams) (a : ℚ) (w : Wallet) (bal : ℚ)
    (hA : p.amount = some a) (h0 : 0 < a)
    (hw : wallets phone = some w) (hb : w.balance = some bal)
    (hra : p.recipientAddress = none) (hrp : p.recipientPhone = some rp)
    (hun : wallets rp = none) (h1 : a ≤ bal) (h2 : a + gas ≤ bal) :
    ∃ d : TransactionData,
      handleSendTransaction wallets gas now pending phone p
        = (pending.set phone (.sendTx d p.name now), .confirmed d) ∧
      d.shouldCreateClaimLink = true ∧
      d.recipientPhone = some rp ∧
      d.amount = a ∧
      d.totalCost = a + gas ∧
      (∀ (env : ExecEnv) (w2 : Wallet) (b2 : ℚ),
        env.wallets phone = some w2 → w2.balance = some b2 →
        d.totalCost ≤ b2 → env.claimLinkResult.success = true →
        executePendingTransaction env phone d
          = .claimLinkCreated (some rp) a env.claimLinkResult.claimLink) := by
  refine ⟨{ fromAddr := w.address, toAddr := none, amount := a,
            estimatedCost := gas, totalCost := a + gas,
            recipientPhone := some rp, shouldCreateClaimLink := true },
          ?_, rfl, rfl, rfl, rfl, ?_⟩
  · unfold handleSendTransaction
    simp [hA, hw, hb, hra, hrp, hun, not_le.mpr h0, not_lt.mpr h1,
      not_lt.mpr h2]
  · intro env w2 b2 hw2 hb2 hle hcl
    unfold executePendingTransaction
    simp [hw2, hb2, not_lt.mpr hle, hcl]

/-- C7 witness: sending 0.1 ETH to the unregistered phone `9333` with
balance 1 and gas 0.01 stores an escrow-mode pending record that, once
confirmed, is delegated to claim-link creation for `9333` and 0.1 ETH. -/
theorem unresolved_recipient_creates_escrow_witness :
    ∃ d : TransactionData,
      handleSendTransaction walletsEx (1/100) 7 (fun _ => none) "9111" pC7
        = (Store.set (fun _ => none) "9111" (.sendTx d pC7.name 7),
           .confirmed d) ∧
      d.shouldCreateClaimLink = true ∧
      d.recipientPhone = some "9333" ∧
      d.amount = 1/10 ∧
      d.totalCost = 1/10 + 1/100 ∧
      (∀ (env : ExecEnv) (w2 : Wallet) (b2 : ℚ),
        env.wallets "9111" = some w2 → w2.balance = some b2 →
        d.totalCost ≤ b2 → env.claimLinkResult.success = true →
        executePendingTransaction env "9111" d
          = .claimLinkCreated (some "9333") (1/10)
              env.claimLinkResult.claimLink) :=
  unresolved_recipient_creates_escrow walletsEx (1/100) 7 (fun _ => none)
    "9111" "9333" pC7 (1/10) { address := "0xA", balance := some 1 } 1
    rfl (by norm_num) rfl rfl rfl rfl rfl (by norm_num) (by norm_num)

/-- C5 counterexample: with balance 1 ETH, a prepare request of 0.8 ETH at
estimated gas 0.3 ETH fails with the insufficient-total error, but the
error message interpolates the required total (1.1) and the current balance
(1) — the shortfall 0.1 itself appears nowhere in the message. -/
theorem insufficient_message_lacks_shortfall :
    (handleSendTransaction walletsEx (3/10) 0 (fun _ => none) "9111" pC5).2
      = .errInsufficientTotal (11/10) 1 ∧
    ((11/10 : ℚ) - 1) ∉
      ((handleSendTransaction walletsEx (3/10) 0
        (fun _ => none) "9111" pC5).2).displayedAmounts := by
  have h : (handleSendTransaction walletsEx (3/10) 0
      (fun _ => none) "9111" pC5).2 = .errInsufficientTotal (11/10) 1 := by
    unfold handleSendTransaction
    norm_num [walletsEx, pC5]
  refine ⟨h, ?_⟩
  rw [h]
  norm_num [PrepOutcome.displayedAmounts]

/-- C5 (amended): whenever amount plus estimated gas exceeds the cached
balance, preparation fails with an insufficient-balance error, no pending
transaction is stored, and the error message shows the current balance
alongside the requested amount or the required total (the shortfall itself
is not interpolated). -/
theorem insufficient_total_rejected_no_store (wallets : Store Wallet)
    (gas : ℚ) (now : ℕ) (pending : Store PendingTx) (phone : Phone)
    (p : SendParams) (a : ℚ) (w : Wallet) (bal : ℚ)
    (hA : p.amount = some a) (h0 : 0 < a)
    (hw : wallets phone = some w) (hb : w.balance = some bal)
    (hover : bal < a + gas) :
    (handleSendTransaction wallets gas now pending phone p).1 = pending ∧
    ((handleSendTransaction wallets gas now pending phone p).2
        = .errInsufficientBalance bal a ∨
      (handleSendTransaction wallets gas now pending phone p).2
        = .errInsufficientTotal (a + gas) bal) ∧
    bal ∈ ((handleSendTransaction wallets gas now pending
      phone p).2).displayedAmounts := by
  unfold handleSendTransaction
  by_cases hba : bal < a
  · simp [hA, hw, hb, hba, not_le.mpr h0, PrepOutcome.displayedAmounts]
  · simp [hA, hw, hb, hba, hover, not_le.mpr h0,
      PrepOutcome.displayedAmounts]

/-- C5 witness: the 0.8 ETH request against balance 1 with gas 0.3 is
rejected without storing a pending record and the message displays the
balance 1. -/
theorem insufficient_total_rejected_no_store_witness :
    (handleSendTransaction walletsEx (3/10) 0 (fun _ => none) "9111" pC5).1
      = (fun _ => none) ∧
    ((handleSendTransaction walletsEx (3/10) 0 (fun _ => none) "9111" pC5).2
        = .errInsufficientBalance 1 (4/5) ∨
      (handleSendTransaction walletsEx (3/10) 0 (fun _ => none) "9111" pC5).2
        = .errInsufficientTotal (4/5 + 3/10) 1) ∧
    (1 : ℚ) ∈ ((handleSendTransaction walletsEx (3/10) 0
      (fun _ => none) "9111" pC5).2).displayedAmounts :=
  insufficient_total_rejected_no_store walletsEx (3/10) 0 (fun _ => none)
    "9111" pC5 (4/5) { address := "0xA", balance := some 1 } 1
    rfl (by norm_num) rfl rfl (by norm_num)

/-- C6: a prepare request whose amount is non-numeric, not strictly
positive, or outside the configured range `[1e-6, 1e6]` is rejected by
`commandParser.validateAmount` in the command handler before any delegation
to the transaction handler, so no pending transaction and no other per-user
state is written. -/
theorem invalid_amount_rejected_no_state (usersStore : Store Unit)
    (wallets : Store Wallet) (gas : ℚ) (now : ℕ) (st : CHState)
    (phone : Phone) (p : SendParams)
    (hu : (usersStore phone).isSome = true)
    (hbad : p.amount = none ∨ ∃ x : ℚ, p.amount = some x ∧
      (x ≤ 0 ∨ x < 1/1000000 ∨ 1000000 < x)) :
    chHandleSendTransaction usersStore wallets gas now st phone p
      = (st, .errInvalidAmountRange) := by
  have hv : validateAmount p.amount = false := by
    rcases hbad with h | ⟨x, hx, hcond⟩
    · rw [h]; rfl
    · have hnot : ¬((1:ℚ)/1000000 ≤ x ∧ x ≤ 1000000) := by
        have hpos : (0:ℚ) < 1/1000000 := by norm_num
        rcases hcond with h | h | h
        · intro hc; linarith [hc.1]
        · intro hc; linarith [hc.1]
        · intro hc; linarith [hc.2]
      have hval : validateAmount (some x)
          = decide ((1:ℚ)/1000000 ≤ x ∧ x ≤ 1000000) := rfl
      rw [hx, hval, decide_eq_false_iff_not]
      exact hnot
  rcases hopt : usersStore phone with _ | u
  · rw [hopt] at hu; simp at hu
  · unfold chHandleSendTransaction
    simp [hopt, hv]

/-- C6 witness: a registered user submitting a non-numeric amount gets the
range-validation rejection and the command-handler state is unchanged. -/
theorem invalid_amount_rejected_no_state_witness :
    chHandleSendTransaction usersEx walletsEx (1/100) 0 stEx "9111" pBad
      = (stEx, .errInvalidAmountRange) :=
  invalid_amount_rejected_no_state usersEx walletsEx (1/100) 0 stEx "9111"
    pBad rfl (Or.inl rfl)

/-- C1: a claim link can be redeemed successfully at most once — after a
successful redemption the stored record is terminal, and any later claim
call on the same token fails with the already-claimed error and leaves the
table (and hence the held funds) untouched; likewise any claim on a link
the sweep has refunded fails with the already-claimed error. -/
theorem claim_at_most_once (links : Store ClaimLink) (token : String)
    (n1 n2 : ℕ) (g1 g2 : ℚ) (hash1 hash2 : String) :
    ((claim links token n1 g1 hash1).2.isSuccess = true →
      claim (claim links token n1 g1 hash1).1 token n2 g2 hash2
        = ((claim links token n1 g1 hash1).1, .errAlreadyClaimed)) ∧
    (∀ l, links token = some l → l.status = .refunded →
      claim links token n2 g2 hash2 = (links, .errAlreadyClaimed)) := by
  constructor
  · intro hs
    rcases hl : links token with _ | l
    · unfold claim at hs
      rw [hl] at hs
      simp [ClaimOutcome.isSuccess] at hs
    · by_cases hst : l.status = .pending
      · by_cases hexp : l.expiresAt < n1
        · unfold claim at hs
          rw [hl] at hs
          simp [hst, hexp, ClaimOutcome.isSuccess] at hs
        · have hpost : (claim links token n1 g1 hash1).1
              = links.set token { l with status := .claimed } := by
            unfold claim
            rw [hl]
            simp [hst, hexp]
          rw [hpost]
          unfold claim
          simp [Store.set]
      · unfold claim at hs
        rw [hl] at hs
        simp [hst, ClaimOutcome.isSuccess] at hs
  · intro l hl hst
    unfold claim
    rw [hl]
    simp [hst]

/-- C1 witness: after the pending 0.1 ETH link under `TOK1` is successfully
redeemed, a second claim call on the same token fails with the
already-claimed error and changes nothing. -/
theorem claim_at_most_once_witness :
    claim (claim linksC1 "TOK1" 1000 (1/1000) "0xh1").1 "TOK1" 2000
        (1/1000) "0xh2"
      = ((claim linksC1 "TOK1" 1000 (1/1000) "0xh1").1,
         .errAlreadyClaimed) :=
  (claim_at_most_once linksC1 "TOK1" 1000 2000 (1/1000) (1/1000)
    "0xh1" "0xh2").1 rfl

end Zappo
